import Mathlib

/-!
# Verification of the `keypad` matrix-driver crate

A shallow embedding of the core of `src/lib.rs` (the `KeypadInput` virtual
input pin and the container generated by `keypad_struct!`) and of the mock
HAL pins of `src/mock_hal.rs`, with theorems settling the specification
claims about them.

Modelling conventions:
* A Rust `fn(&mut self) -> Result<(), E>` on an output pin becomes a function
  `κ → Option E × κ` on the pin-state type `κ`: the pin state after the call
  (mutated even when an error is returned) together with the possible error.
* A Rust `fn(&self) -> Result<bool, E>` on an input pin becomes
  `ρ → Option (Except E Bool)`: the pin state cannot change (`&self`, no
  interior mutability in any row pin used here), and `none` models a `panic!`
  inside the pin implementation (the mock input pin panics on a floating
  read), which unwinds through the caller.
* `core::cell::RefCell` is modelled by a value plus a borrow flag;
  `borrow_mut` on an already-borrowed cell panics, modelled as `none`.
-/

namespace Keypad

/-- Model of an `embedded_hal` `OutputPin` implementation with error type `E`
and pin-state type `κ`: `set_low`/`set_high` take `&mut self` and return
`Result<(), E>`, so each maps a state to a possible error and a new state. -/
structure OutputPinModel (κ E : Type) where
  set_low : κ → Option E × κ
  set_high : κ → Option E × κ

/-- Model of an `embedded_hal` `InputPin` implementation with error type `E`
and pin-state type `ρ`: `is_low` takes `&self` (state unchanged) and returns
`Result<bool, E>`; the outer `Option` is `none` when the implementation
panics (the mock pin panics on a floating read). -/
structure InputPinModel (ρ E : Type) where
  is_low : ρ → Option (Except E Bool)

/-- Model of `core::cell::RefCell`: a value together with the runtime borrow flag
(`true` while a mutable borrow is outstanding). -/
structure RefCell (κ : Type) where
  value : κ
  borrowed : Bool

/-- Rust `RefCell::new`: wrap a value with no outstanding borrow. -/
def RefCell.new (v : κ) : RefCell κ := ⟨v, false⟩

/-- Rust `RefCell::borrow_mut`: panics (`none`) when a borrow is already
outstanding, otherwise marks the cell borrowed. -/
def RefCell.borrow_mut (rc : RefCell κ) : Option (RefCell κ) :=
  if rc.borrowed then none else some { rc with borrowed := true }

/-- Dropping the `RefMut` guard at the end of its statement: the borrow flag
is cleared. -/
def RefCell.dropBorrow (rc : RefCell κ) : RefCell κ :=
  { rc with borrowed := false }

/-- Translation of `KeypadInput::is_low` (src/lib.rs lines 189-194), with the `RefCell`
borrow bookkeeping elided (each `borrow_mut` succeeds when the cell is
unborrowed at entry; see `is_lowRC` for the version with the borrow flag):

```
fn is_low(&self) -> Result<bool, E> {
    self.col.borrow_mut().set_low()?;
    let out = self.row.is_low()?;
    self.col.borrow_mut().set_high()?;
    Ok(out)
}
```

Returns the `Result` together with the final column-pin state; `none` when
the row read panics. -/
def KeypadInput.is_low (rowM : InputPinModel ρ E) (colM : OutputPinModel κ E)
    (rs : ρ) (cs : κ) : Option (Except E Bool × κ) :=
  match colM.set_low cs with
  | (some e, cs₁) => some (.error e, cs₁)
  | (none, cs₁) =>
    match rowM.is_low rs with
    | none => none
    | some (.error e) => some (.error e, cs₁)
    | some (.ok out) =>
      match colM.set_high cs₁ with
      | (some e, cs₂) => some (.error e, cs₂)
      | (none, cs₂) => some (.ok out, cs₂)

/-- Translation of `KeypadInput::is_high` (src/lib.rs lines 184-186):

```
fn is_high(&self) -> Result<bool, E> {
    Ok(!self.is_low()?)
}
```
-/
def KeypadInput.is_high (rowM : InputPinModel ρ E) (colM : OutputPinModel κ E)
    (rs : ρ) (cs : κ) : Option (Except E Bool × κ) :=
  match KeypadInput.is_low rowM colM rs cs with
  | none => none
  | some (.error e, cs') => some (.error e, cs')
  | some (.ok out, cs') => some (.ok !out, cs')

/-- Translation of `KeypadInput::is_low` with the `RefCell` borrow flag made explicit. Each
`self.col.borrow_mut()` produces a temporary `RefMut` guard that is dropped
at the end of its own statement, so the borrow is acquired and released
twice: once around `set_low` and once around `set_high`. `none` models a
panic (a `borrow_mut` on an already-borrowed cell, or a panicking row
read). -/
def KeypadInput.is_lowRC (rowM : InputPinModel ρ E) (colM : OutputPinModel κ E)
    (rs : ρ) (rc : RefCell κ) : Option (Except E Bool × RefCell κ) :=
  match rc.borrow_mut with
  | none => none
  | some rc₁ =>
    let (e₁, cs₁) := colM.set_low rc₁.value
    let rc₂ := RefCell.dropBorrow { rc₁ with value := cs₁ }
    match e₁ with
    | some e => some (.error e, rc₂)
    | none =>
      match rowM.is_low rs with
      | none => none
      | some (.error e) => some (.error e, rc₂)
      | some (.ok out) =>
        match rc₂.borrow_mut with
        | none => none
        | some rc₃ =>
          let (e₂, cs₂) := colM.set_high rc₃.value
          let rc₄ := RefCell.dropBorrow { rc₃ with value := cs₂ }
          match e₂ with
          | some e => some (.error e, rc₄)
          | none => some (.ok out, rc₄)

/-- An interleaved scan: the outer read of key (row `rs`) reaches the point
between its column assert and its row read, and there an interrupt performs
a complete inner read of another key (row `rs'`) sharing the same column
`RefCell`, after which the outer read resumes. Returns, on the path where
the outer assert succeeded, the outer result, the inner result, and the
column value the outer row read actually runs against (i.e. the column
state after the inner read finished), plus the final `RefCell`. `none`
models a panic anywhere. -/
def KeypadInput.is_lowInterleaved (rowM rowM' : InputPinModel ρ E)
    (colM : OutputPinModel κ E) (rs rs' : ρ) (rc : RefCell κ) :
    Option ((Except E Bool × Except E Bool) × κ × RefCell κ) :=
  match rc.borrow_mut with
  | none => none
  | some rc₁ =>
    let (e₁, cs₁) := colM.set_low rc₁.value
    let rc₂ := RefCell.dropBorrow { rc₁ with value := cs₁ }
    match e₁ with
    | some _ => none
    | none =>
      match KeypadInput.is_lowRC rowM' colM rs' rc₂ with
      | none => none
      | some (innerRes, rcMid) =>
        match rowM.is_low rs with
        | none => none
        | some (.error _) => none
        | some (.ok out) =>
          match rcMid.borrow_mut with
          | none => none
          | some rc₃ =>
            let (e₂, cs₂) := colM.set_high rc₃.value
            let rc₄ := RefCell.dropBorrow { rc₃ with value := cs₂ }
            match e₂ with
            | some _ => none
            | none => some ((.ok out, innerRes), rcMid.value, rc₄)

end Keypad

namespace MockHal

/-- Mock pin state `mock_hal::State`: the internal state of a mock pin. -/
inductive State : Type
  | High : State
  | Low : State
  | Float : State
deriving DecidableEq, Repr

/-- Impl `OutputPin for Pin<Output<OpenDrain>>` (src/mock_hal.rs lines 167-178):
`set_high` leaves the pin floating, `set_low` drives it low; the error type
is `Infallible`, so no error is ever returned. Error type left generic: the
mock never produces one. -/
def openDrainPin (E : Type) : Keypad.OutputPinModel State E where
  set_low := fun _ => (none, State.Low)
  set_high := fun _ => (none, State.Float)

/-- Impl `InputPin for Pin<Input<MODE>>` (src/mock_hal.rs lines 180-196):
`is_low` answers from the stored state and panics on a floating input. -/
def inputPin (E : Type) : Keypad.InputPinModel State E where
  is_low := fun s =>
    match s with
    | State.Low => some (.ok true)
    | State.High => some (.ok false)
    | State.Float => none

/-- Impl `Default for Pin<Input<PullUp>>` (src/mock_hal.rs lines 105-112): the
default state of a pull-up input pin is `High`. -/
def defaultPullUpInput : State := State.High

/-- Impl `Default for Pin<Output<OpenDrain>>` (src/mock_hal.rs lines 124-131):
the default state of an open-drain output pin is `Float`. -/
def defaultOpenDrainOutput : State := State.Float

end MockHal

namespace Keypad

/-- A `KeypadInput` as a view of one matrix cell: it stores references to
row pin `row` and column pin `col` of the container (references are
modelled as indices into the container's pin lists). -/
structure KeypadInputRef : Type where
  row : Nat
  col : Nat
deriving DecidableEq, Repr

/-- Constructor `KeypadInput::new` (src/lib.rs lines 173-178): store the two
references. -/
def KeypadInputRef.new (row col : Nat) : KeypadInputRef := ⟨row, col⟩

/-- The struct generated by `keypad_struct!` (src/lib.rs lines 321-330): it
owns the row pins and the column pins, each column pin wrapped in a
`RefCell`. The heterogeneous tuples are modelled as lists over the pin-state
types. -/
structure KeypadStruct (ρ κ : Type) where
  rows : List ρ
  columns : List (RefCell κ)

/-- Macro `keypad_new!` (src/lib.rs lines 484-494): build the struct from the
given row pins and column pins, wrapping each column pin in
`RefCell::new`. -/
def keypadNew (rows : List ρ) (cols : List κ) : KeypadStruct ρ κ :=
  { rows := rows, columns := cols.map RefCell.new }

/-- Method `decompose` (src/lib.rs lines 336-375): build the 2d array of
`KeypadInput`s; element `(r, c)` is `KeypadInput::new(rows[r], columns[c])`,
filled by the row-major double loop `for r in 0..rows.len() { for c in
0..columns.len() { out[r][c].write(KeypadInput::new(rows[r], columns[c])) } }`. -/
def KeypadStruct.decompose (k : KeypadStruct ρ κ) : List (List KeypadInputRef) :=
  (List.range k.rows.length).map fun r =>
    (List.range k.columns.length).map fun c => KeypadInputRef.new r c

/-- Method `release` (src/lib.rs lines 386-389): consume the struct and return
`(self.rows, self.columns)`, the column pins still inside their
`RefCell`s. -/
def KeypadStruct.release (k : KeypadStruct ρ κ) : List ρ × List (RefCell κ) :=
  (k.rows, k.columns)

/-- Reading the `KeypadInput` at cell `(r, c)` of a keypad whose row-pin
states are `rows` and whose column-pin states are `cols`, all pins sharing
the input model `rowM` and output model `colM`. The scan of
`KeypadInput::is_low` touches only `rows[r]` (by `&self`, never mutated)
and `cols[c]` (mutated in place); `none` when the indices are out of bounds
(the real `decompose` only ever creates in-bounds references) or the scan
panics. Returns the read result paired with the row states (unchanged: row
reads take `&self`) and the updated column states. -/
def readKeyLow (rowM : InputPinModel ρ E) (colM : OutputPinModel κ E)
    (rows : List ρ) (cols : List κ) (r c : Nat) :
    Option (Except E Bool × List ρ × List κ) :=
  match rows[r]?, cols[c]? with
  | some rs, some cs =>
    match KeypadInput.is_low rowM colM rs cs with
    | none => none
    | some (res, cs') => some (res, rows, cols.set c cs')
  | _, _ => none

end Keypad

namespace Keypad

/-- An input-pin model whose read always fails with error `()`: used to
exercise the row-read error path of the scan. -/
def failRowPin : InputPinModel MockHal.State Unit where
  is_low := fun _ => some (.error ())

/-- An output-pin model whose `set_low` always fails with error `()` while
still driving the pin low, and whose `set_high` succeeds: used to exercise
the assert error path of the scan. -/
def failSetLowPin : OutputPinModel MockHal.State Unit where
  set_low := fun _ => (some (), MockHal.State.Low)
  set_high := fun _ => (none, MockHal.State.Float)

end Keypad

/-- Setting any position of a constant list to the same constant leaves the
list unchanged. -/
theorem set_replicate_self (a : α) : ∀ (n c : Nat),
    (List.replicate n a).set c a = List.replicate n a
  | 0, _ => rfl
  | _ + 1, 0 => by simp [List.replicate_succ]
  | n + 1, c + 1 => by
    simp [List.replicate_succ, List.set, set_replicate_self a n c]

/-- C9: `release` consumes the keypad struct and returns exactly the row
pins and the column pins it was constructed from, unchanged and in their
declared order, the column pins still wrapped in their `RefCell` guards;
unwrapping the guards recovers the original column pins in order. -/
theorem release_returns_original_pins {ρ κ : Type} (rows : List ρ) (cols : List κ) :
    (Keypad.keypadNew rows cols).release = (rows, cols.map Keypad.RefCell.new) ∧
    ((Keypad.keypadNew rows cols).release.2.map Keypad.RefCell.value) = cols := by
  constructor
  · rfl
  · simp [Keypad.keypadNew, Keypad.KeypadStruct.release, Keypad.RefCell.new,
      Function.comp_def]

/-- C3: for a keypad struct with R row pins and C column pins, `decompose`
returns a grid with exactly R rows, every row of which has exactly C
entries, and the entry at index (r, c) is the `KeypadInput` referencing row
pin r and column pin c of the container. -/
theorem decompose_grid_shape_and_refs {ρ κ : Type} (k : Keypad.KeypadStruct ρ κ)
    (r c : Nat) (hr : r < k.rows.length) (hc : c < k.columns.length) :
    k.decompose.length = k.rows.length ∧
    (∀ row ∈ k.decompose, row.length = k.columns.length) ∧
    k.decompose[r]?.bind (fun row => row[c]?) = some (Keypad.KeypadInputRef.new r c) := by
  refine ⟨by simp [Keypad.KeypadStruct.decompose], ?_, ?_⟩
  · intro row hrow
    simp only [Keypad.KeypadStruct.decompose, List.mem_map] at hrow
    obtain ⟨a, -, rfl⟩ := hrow
    simp
  · simp [Keypad.KeypadStruct.decompose, List.getElem?_map,
      List.getElem?_range hr, List.getElem?_range hc]

/-- Witness for C3 at the spec's own 2-rows-by-3-columns example: the grid
has 2 rows of 3 entries each and cell (1, 2) references row pin 1 and
column pin 2. -/
theorem decompose_grid_shape_and_refs_witness :
    let k := Keypad.keypadNew
      [MockHal.defaultPullUpInput, MockHal.defaultPullUpInput]
      [MockHal.defaultOpenDrainOutput, MockHal.defaultOpenDrainOutput,
        MockHal.defaultOpenDrainOutput]
    k.decompose.length = k.rows.length ∧
    (∀ row ∈ k.decompose, row.length = k.columns.length) ∧
    k.decompose[1]?.bind (fun row => row[2]?) = some (Keypad.KeypadInputRef.new 1 2) :=
  decompose_grid_shape_and_refs _ 1 2 (by decide) (by decide)

/-- C5: `is_high` is the logical negation of `is_low` with the same side
effects: whenever `is_low` returns `Ok b` leaving the column pin in state
cs', `is_high` returns `Ok (not b)` leaving the column pin in the same
state cs'; whenever `is_low` returns an error, `is_high` returns the same
error with the same final column state. -/
theorem isHigh_negation_of_isLow {ρ κ E : Type} (rowM : Keypad.InputPinModel ρ E)
    (colM : Keypad.OutputPinModel κ E) (rs : ρ) (cs : κ) :
    (∀ b cs', Keypad.KeypadInput.is_low rowM colM rs cs = some (.ok b, cs') →
      Keypad.KeypadInput.is_high rowM colM rs cs = some (.ok !b, cs')) ∧
    (∀ e cs', Keypad.KeypadInput.is_low rowM colM rs cs = some (.error e, cs') →
      Keypad.KeypadInput.is_high rowM colM rs cs = some (.error e, cs')) := by
  constructor
  · intro b cs' h
    simp [Keypad.KeypadInput.is_high, h]
  · intro e cs' h
    simp [Keypad.KeypadInput.is_high, h]

/-- Witness for C5: on a mock key whose row pin reads low, `is_low` returns
`Ok true` and `is_high` returns `Ok false`, with the same final column
state. -/
theorem isHigh_negation_of_isLow_witness :
    Keypad.KeypadInput.is_high (MockHal.inputPin Unit) (MockHal.openDrainPin Unit)
      MockHal.State.Low MockHal.State.Float
      = some (.ok false, MockHal.State.Float) := by
  have h := (isHigh_negation_of_isLow (MockHal.inputPin Unit) (MockHal.openDrainPin Unit)
    MockHal.State.Low MockHal.State.Float).1 true MockHal.State.Float rfl
  simpa using h

/-- C6: when the column assert (`set_low`) fails, `is_low` returns that
error with the column pin exactly as the failed assert left it: the row pin
is never sampled (the result is the same for every row-pin model and row
state) and the de-assert is never performed (the result is the same for
every `set_high` behavior). -/
theorem assert_failure_fail_fast {κ E : Type} (colM : Keypad.OutputPinModel κ E)
    (cs : κ) (e : E) (cs₁ : κ) (h : colM.set_low cs = (some e, cs₁)) :
    (∀ (ρ : Type) (rowM : Keypad.InputPinModel ρ E) (rs : ρ),
      Keypad.KeypadInput.is_low rowM colM rs cs = some (.error e, cs₁)) ∧
    (∀ (ρ : Type) (rowM : Keypad.InputPinModel ρ E) (rs : ρ)
      (sh : κ → Option E × κ),
      Keypad.KeypadInput.is_low rowM (Keypad.OutputPinModel.mk colM.set_low sh) rs cs
        = some (.error e, cs₁)) := by
  constructor
  · intro ρ rowM rs
    simp [Keypad.KeypadInput.is_low, h]
  · intro ρ rowM rs sh
    simp [Keypad.KeypadInput.is_low, h]

/-- Witness for C6: a concrete output pin whose assert fails makes `is_low`
return the assert error with the column as the failed assert left it. -/
theorem assert_failure_fail_fast_witness :
    Keypad.failSetLowPin.set_low MockHal.State.Float = (some (), MockHal.State.Low) ∧
    Keypad.KeypadInput.is_low (MockHal.inputPin Unit) Keypad.failSetLowPin
      MockHal.State.High MockHal.State.Float = some (.error (), MockHal.State.Low) :=
  ⟨rfl, (assert_failure_fail_fast Keypad.failSetLowPin MockHal.State.Float () MockHal.State.Low
    rfl).1 MockHal.State (MockHal.inputPin Unit) MockHal.State.High⟩

/-- C10: whenever `is_low` succeeds, the final column-pin state is exactly
the output of `set_high` on the state the assert produced — the column is
unconditionally forced to its inactive level, not restored to its prior
level; in particular, for the mock open-drain column pin the final state is
`Float` for every starting state, including an already-asserted `Low`
one. -/
theorem success_forces_column_inactive (ρ κ E : Type) :
    (∀ (rowM : Keypad.InputPinModel ρ E) (colM : Keypad.OutputPinModel κ E)
      (rs : ρ) (cs : κ) (b : Bool) (cs₂ : κ),
      Keypad.KeypadInput.is_low rowM colM rs cs = some (.ok b, cs₂) →
      ∃ cs₁, colM.set_low cs = (none, cs₁) ∧ colM.set_high cs₁ = (none, cs₂)) ∧
    (∀ cs : MockHal.State,
      Keypad.KeypadInput.is_low (MockHal.inputPin E) (MockHal.openDrainPin E)
        MockHal.State.High cs = some (.ok false, MockHal.State.Float)) := by
  constructor
  · intro rowM colM rs cs b cs₂ h
    rcases hsl : colM.set_low cs with ⟨e₁, cs₁⟩
    cases e₁ with
    | some e => simp [Keypad.KeypadInput.is_low, hsl] at h
    | none =>
      rcases hrl : rowM.is_low rs with - | r
      · simp [Keypad.KeypadInput.is_low, hsl, hrl] at h
      · cases r with
        | error e => simp [Keypad.KeypadInput.is_low, hsl, hrl] at h
        | ok out =>
          rcases hsh : colM.set_high cs₁ with ⟨e₂, cs₂'⟩
          cases e₂ with
          | some e => simp [Keypad.KeypadInput.is_low, hsl, hrl, hsh] at h
          | none =>
            simp only [Keypad.KeypadInput.is_low, hsl, hrl, hsh,
              Option.some.injEq, Prod.mk.injEq, Except.ok.injEq] at h
            exact ⟨cs₁, rfl, by rw [hsh, h.2]⟩
  · intro cs
    rfl

/-- Witness for C10: starting from an already-asserted (`Low`) mock column
pin, a successful read ends with the column forced to `Float`, the
`set_high` output, not restored to `Low`. -/
theorem success_forces_column_inactive_witness :
    ∃ cs₁, (MockHal.openDrainPin Unit).set_low MockHal.State.Low = (none, cs₁) ∧
      (MockHal.openDrainPin Unit).set_high cs₁ = (none, MockHal.State.Float) :=
  (success_forces_column_inactive MockHal.State MockHal.State Unit).1
    (MockHal.inputPin Unit) (MockHal.openDrainPin Unit) MockHal.State.High
    MockHal.State.Low false MockHal.State.Float rfl

/-- Counterexample for C1: a concrete run in which the column assert
succeeds, the row read fails, and `is_low` returns the error with the
column still driven `Low` (asserted): the de-assert was not executed, even
though it would have succeeded and left the column `Float`. -/
theorem deassert_skipped_on_row_error :
    Keypad.KeypadInput.is_low Keypad.failRowPin (MockHal.openDrainPin Unit)
      MockHal.State.High MockHal.State.Float
      = some (.error (), MockHal.State.Low) ∧
    (MockHal.openDrainPin Unit).set_high MockHal.State.Low
      = (none, MockHal.State.Float) ∧
    MockHal.State.Low ≠ MockHal.State.Float :=
  ⟨rfl, rfl, by decide⟩

/-- C1 as amended: if the column assert succeeds but the row read fails,
the error is propagated immediately and the de-assert step is not executed:
`is_low` returns the row error with the column exactly as the assert left
it (asserted), and the result does not depend on the `set_high` behavior at
all. -/
theorem row_error_skips_deassert {ρ κ E : Type}
    (rowM : Keypad.InputPinModel ρ E) (colM : Keypad.OutputPinModel κ E)
    (rs : ρ) (cs : κ) (e : E) (cs₁ : κ)
    (hassert : colM.set_low cs = (none, cs₁))
    (hrow : rowM.is_low rs = some (.error e)) :
    Keypad.KeypadInput.is_low rowM colM rs cs = some (.error e, cs₁) ∧
    ∀ sh : κ → Option E × κ,
      Keypad.KeypadInput.is_low rowM (Keypad.OutputPinModel.mk colM.set_low sh) rs cs
        = some (.error e, cs₁) := by
  constructor
  · simp [Keypad.KeypadInput.is_low, hassert, hrow]
  · intro sh
    simp [Keypad.KeypadInput.is_low, hassert, hrow]

/-- Witness for the amended C1: the failing-row pin over the mock open-drain
column pin returns the row error with the column left `Low`. -/
theorem row_error_skips_deassert_witness :
    Keypad.KeypadInput.is_low Keypad.failRowPin (MockHal.openDrainPin Unit)
      MockHal.State.Low MockHal.State.Float = some (.error (), MockHal.State.Low) :=
  (row_error_skips_deassert Keypad.failRowPin (MockHal.openDrainPin Unit)
    MockHal.State.Low MockHal.State.Float () MockHal.State.Low rfl rfl).1

/-- Counterexample for C2: the `RefCell` guard is released between the
assert and the de-assert, so a complete reentrant read of another key
sharing the column, arriving between the outer assert and the outer row
read, acquires the guard, runs to completion without any panic or error
(returning `Ok true`), and mutates the column: the outer row read then runs
with the column at `Float` even though the outer scan had asserted it
`Low`. -/
theorem reentrant_read_races_unchecked :
    Keypad.KeypadInput.is_lowInterleaved (MockHal.inputPin Unit) (MockHal.inputPin Unit)
      (MockHal.openDrainPin Unit) MockHal.State.High MockHal.State.Low
      (Keypad.RefCell.new MockHal.State.Float)
      = some ((.ok false, .ok true), MockHal.State.Float,
          Keypad.RefCell.new MockHal.State.Float) ∧
    MockHal.State.Float ≠ MockHal.State.Low :=
  ⟨rfl, by decide⟩

/-- C2 as amended: the guard is acquired and released separately around each
of the two column writes, not held across the row read; an access attempted
while the guard is actually held (borrow flag set) panics rather than
silently racing, but a reentrant read arriving between the assert and the
de-assert acquires the guard successfully and can observe and mutate the
column (see the counterexample). -/
theorem scan_aborts_when_guard_already_held {ρ κ E : Type}
    (rowM : Keypad.InputPinModel ρ E) (colM : Keypad.OutputPinModel κ E)
    (rs : ρ) (rc : Keypad.RefCell κ) (h : rc.borrowed = true) :
    Keypad.KeypadInput.is_lowRC rowM colM rs rc = none := by
  simp [Keypad.KeypadInput.is_lowRC, Keypad.RefCell.borrow_mut, h]

/-- Witness for the amended C2: a read attempted on a column `RefCell` whose
guard is currently held panics. -/
theorem scan_aborts_when_guard_already_held_witness :
    Keypad.KeypadInput.is_lowRC (MockHal.inputPin Unit) (MockHal.openDrainPin Unit)
      MockHal.State.High ⟨MockHal.State.Low, true⟩ = none :=
  scan_aborts_when_guard_already_held (MockHal.inputPin Unit) (MockHal.openDrainPin Unit)
    MockHal.State.High ⟨MockHal.State.Low, true⟩ rfl

/-- C4: a completed read of key (r, c) touches only its own row and column:
the row-pin states come back unchanged, every column pin other than c keeps
its state, and the outcome is exactly the single-cell scan run on row pin r
and column pin c alone, with only column c updated. -/
theorem read_touches_only_own_row_and_column {ρ κ E : Type}
    (rowM : Keypad.InputPinModel ρ E) (colM : Keypad.OutputPinModel κ E)
    (rows : List ρ) (cols : List κ) (r c : Nat)
    (res : Except E Bool) (rows' : List ρ) (cols' : List κ)
    (h : Keypad.readKeyLow rowM colM rows cols r c = some (res, rows', cols')) :
    rows' = rows ∧
    (∀ c', c' ≠ c → cols'[c']? = cols[c']?) ∧
    ∃ rs cs cs', rows[r]? = some rs ∧ cols[c]? = some cs ∧
      Keypad.KeypadInput.is_low rowM colM rs cs = some (res, cs') ∧
      cols' = cols.set c cs' := by
  rcases hr : rows[r]? with - | rs
  · simp [Keypad.readKeyLow, hr] at h
  · rcases hc : cols[c]? with - | cs
    · simp [Keypad.readKeyLow, hr, hc] at h
    · rcases hi : Keypad.KeypadInput.is_low rowM colM rs cs with - | p
      · simp [Keypad.readKeyLow, hr, hc, hi] at h
      · rcases p with ⟨res₀, cs'⟩
        simp only [Keypad.readKeyLow, hr, hc, hi, Option.some.injEq,
          Prod.mk.injEq] at h
        obtain ⟨h₁, h₂, h₃⟩ := h
        subst h₁ h₂ h₃
        refine ⟨rfl, ?_, rs, cs, cs', rfl, rfl, hi, rfl⟩
        intro c' hne
        exact List.getElem?_set_ne (fun hh => hne hh.symm)

/-- Witness for C4 on a concrete 1-row, 2-column mock keypad: reading key
(0, 0) changes no other column and returns the single-cell scan result. -/
theorem read_touches_only_own_row_and_column_witness :
    (Keypad.readKeyLow (MockHal.inputPin Unit) (MockHal.openDrainPin Unit)
      [MockHal.State.High] [MockHal.State.Float, MockHal.State.Low] 0 0
      = some (.ok false, [MockHal.State.High],
          [MockHal.State.Float, MockHal.State.Low])) ∧
    (∀ c', c' ≠ 0 →
      ([MockHal.State.Float, MockHal.State.Low] : List MockHal.State)[c']?
        = [MockHal.State.Float, MockHal.State.Low][c']?) :=
  ⟨rfl, (read_touches_only_own_row_and_column (MockHal.inputPin Unit)
    (MockHal.openDrainPin Unit) [MockHal.State.High]
    [MockHal.State.Float, MockHal.State.Low] 0 0 (.ok false)
    [MockHal.State.High] [MockHal.State.Float, MockHal.State.Low] rfl).2.1⟩

/-- C7: with every row pin in its default pull-up state (`High`) and every
column pin in its default open-drain state (`Float`), reading any in-bounds
key of the grid succeeds, returns `Ok false` (not pressed), and leaves all
pin states as they were. -/
theorem default_keypad_reads_not_pressed (E : Type) (R C r c : Nat)
    (hr : r < R) (hc : c < C) :
    Keypad.readKeyLow (MockHal.inputPin E) (MockHal.openDrainPin E)
      (List.replicate R MockHal.defaultPullUpInput)
      (List.replicate C MockHal.defaultOpenDrainOutput) r c
      = some (.ok false, List.replicate R MockHal.defaultPullUpInput,
          List.replicate C MockHal.defaultOpenDrainOutput) := by
  have hscan : Keypad.KeypadInput.is_low (MockHal.inputPin E) (MockHal.openDrainPin E)
      MockHal.defaultPullUpInput MockHal.defaultOpenDrainOutput
      = some (.ok false, MockHal.defaultOpenDrainOutput) := rfl
  simp only [Keypad.readKeyLow, List.getElem?_replicate, hr, hc, if_true, hscan,
    set_replicate_self]

/-- Witness for C7: key (3, 4) of a default 4-row, 5-column mock keypad
(the shape of the crate's own example) reads `Ok false`. -/
theorem default_keypad_reads_not_pressed_witness :
    Keypad.readKeyLow (MockHal.inputPin Unit) (MockHal.openDrainPin Unit)
      (List.replicate 4 MockHal.defaultPullUpInput)
      (List.replicate 5 MockHal.defaultOpenDrainOutput) 3 4
      = some (.ok false, List.replicate 4 MockHal.defaultPullUpInput,
          List.replicate 5 MockHal.defaultOpenDrainOutput) :=
  default_keypad_reads_not_pressed Unit 4 5 3 4 (by decide) (by decide)

/-- A successful scan reports exactly what the row pin reads: if `is_low`
returns `Ok b`, then the row-pin model read `b` on this row state. -/
theorem isLow_ok_eq_row_read {ρ κ E : Type}
    (rowM : Keypad.InputPinModel ρ E) (colM : Keypad.OutputPinModel κ E)
    (rs : ρ) (cs : κ) (b : Bool) (cs' : κ)
    (h : Keypad.KeypadInput.is_low rowM colM rs cs = some (.ok b, cs')) :
    rowM.is_low rs = some (.ok b) := by
  rcases hsl : colM.set_low cs with ⟨e₁, cs₁⟩
  cases e₁ with
  | some e => simp [Keypad.KeypadInput.is_low, hsl] at h
  | none =>
    rcases hrl : rowM.is_low rs with - | res
    · simp [Keypad.KeypadInput.is_low, hsl, hrl] at h
    · cases res with
      | error e => simp [Keypad.KeypadInput.is_low, hsl, hrl] at h
      | ok out =>
        rcases hsh : colM.set_high cs₁ with ⟨e₂, cs₂⟩
        cases e₂ with
        | some e => simp [Keypad.KeypadInput.is_low, hsl, hrl, hsh] at h
        | none =>
          simp only [Keypad.KeypadInput.is_low, hsl, hrl, hsh, Option.some.injEq,
            Prod.mk.injEq, Except.ok.injEq] at h
          rw [h.1]

/-- C8: two consecutive successful reads of the same key with the physical
row state unchanged return the same boolean: the second read starts from
the column state the first scan left behind and reports the same value. -/
theorem repeated_reads_return_same_boolean {ρ κ E : Type}
    (rowM : Keypad.InputPinModel ρ E) (colM : Keypad.OutputPinModel κ E)
    (rs : ρ) (cs : κ) (b₁ b₂ : Bool) (cs' cs'' : κ)
    (h₁ : Keypad.KeypadInput.is_low rowM colM rs cs = some (.ok b₁, cs'))
    (h₂ : Keypad.KeypadInput.is_low rowM colM rs cs' = some (.ok b₂, cs'')) :
    b₁ = b₂ := by
  have e₁ := isLow_ok_eq_row_read rowM colM rs cs b₁ cs' h₁
  have e₂ := isLow_ok_eq_row_read rowM colM rs cs' b₂ cs'' h₂
  have e := e₁.symm.trans e₂
  simpa using e

/-- Witness for C8: two consecutive reads of a mock key whose row pin stays
`Low` both return `true`. -/
theorem repeated_reads_return_same_boolean_witness :
    (Keypad.KeypadInput.is_low (MockHal.inputPin Unit) (MockHal.openDrainPin Unit)
      MockHal.State.Low MockHal.State.Float = some (.ok true, MockHal.State.Float)) ∧
    true = true :=
  ⟨rfl, repeated_reads_return_same_boolean (MockHal.inputPin Unit)
    (MockHal.openDrainPin Unit) MockHal.State.Low MockHal.State.Float
    true true MockHal.State.Float MockHal.State.Float rfl rfl⟩
